import Mathlib

/-!
The NDK MediaCodec session wrapper, `modules/codec/omxil/mediacodec_ndk.c`.

A shallow embedding of `Stop`, `Start`, `Flush`, `PutInput`,
`GetFormatInteger`, `GetOutput`, `ReleaseOutput` and `InitSymbols`.  The handle (`mc_api` with its `mc_api_sys`) is
passed explicitly.  Every call into the native library is recorded, in order,
as an `NdkCall`; what the native library answers during one invocation is an
argument of the embedded function, so a statement quantified over that
argument holds for every behaviour of the native side.  Logging (`msg_Err`,
`msg_Dbg`) has no effect on the handle and is left out.
-/

namespace MediaCodecNdk

/-- A native pointer, as an address; `0` is the null pointer. -/
abbrev Ptr := Nat

/-- The null pointer. -/
abbrev NULL : Ptr := 0

/-- Modelled from the spec: the success code `VLC_SUCCESS` of `vlc_common.h`
(that header is not among the sources); the header gives it the value 0. -/
abbrev VLC_SUCCESS : Int := 0

/-- Modelled from the spec: the error code `VLC_EGENERIC` of `vlc_common.h`
(that header is not among the sources).  The spec keeps errors apart from the
`NotReady` (0) and `Submitted` (1) results; the header gives it the value -1. -/
abbrev VLC_EGENERIC : Int := -1

/-- The status `AMEDIA_OK` of `media_status_t`. -/
abbrev AMEDIA_OK : Int := 0

/-- The input flag `AMEDIACODEC_FLAG_CODEC_CONFIG`, defined as 2. -/
abbrev AMEDIACODEC_FLAG_CODEC_CONFIG : Nat := 2

/-- The sentinel `AMEDIACODEC_INFO_OUTPUT_BUFFERS_CHANGED = -3`. -/
abbrev AMEDIACODEC_INFO_OUTPUT_BUFFERS_CHANGED : Int := -3

/-- The sentinel `AMEDIACODEC_INFO_OUTPUT_FORMAT_CHANGED = -2`. -/
abbrev AMEDIACODEC_INFO_OUTPUT_FORMAT_CHANGED : Int := -2

/-- The sentinel `AMEDIACODEC_INFO_TRY_AGAIN_LATER = -1`. -/
abbrev AMEDIACODEC_INFO_TRY_AGAIN_LATER : Int := -1

/-- One call into the native library, with its arguments and, where the code
looks at it, the value it returned. -/
inductive NdkCall where
  | createCodecByName (name : String) (ret : Ptr)
  | configure (codec format surface : Ptr) (flags : Nat) (ret : Int)
  | start (codec : Ptr) (ret : Int)
  | stop (codec : Ptr)
  | flush (codec : Ptr) (ret : Int)
  | delete (codec : Ptr)
  | getOutputFormat (codec : Ptr)
  | dequeueInputBuffer (codec : Ptr) (timeoutUs : Int) (ret : Int)
  | getInputBuffer (codec : Ptr) (idx : Nat) (ret : Ptr) (out_size : Nat)
  | queueInputBuffer (codec : Ptr) (idx offset size : Nat) (time : Int) (flags : Nat) (ret : Int)
  | dequeueOutputBuffer (codec : Ptr) (timeoutUs : Int) (ret : Int)
  | getOutputBuffer (codec : Ptr) (idx : Nat) (ret : Ptr) (out_size : Nat)
  | releaseOutputBuffer (codec : Ptr) (idx : Int) (render : Bool) (ret : Int)
  | formatNew (ret : Ptr)
  | formatDelete (format : Ptr)
  | setString (format : Ptr) (name value : String)
  | setInt32 (format : Ptr) (name : String) (value : Int)
  | getInt32 (name : String) (found : Bool)
  deriving DecidableEq, Repr

/-- The private part of the handle, `struct mc_api_sys`. -/
structure mc_api_sys where
  p_codec : Ptr
  p_format : Ptr
  deriving DecidableEq, Repr

/-- The fields of `mc_api` (declared in `mediacodec.h`) that this file reads
and writes. -/
structure mc_api where
  p_sys : mc_api_sys
  b_started : Bool
  b_direct_rendering : Bool
  deriving DecidableEq, Repr

/-- What a call leaves behind: the value returned, the handle afterwards and
the native calls made, in order. -/
structure Outcome where
  ret : Int
  api : mc_api
  calls : List NdkCall
  deriving DecidableEq, Repr

/-- The function `Stop`, lines 270-294. -/
def Stop (api : mc_api) : Outcome :=
  let p_codec := api.p_sys.p_codec
  let p_format := api.p_sys.p_format
  let api := { api with b_direct_rendering := false }
  let (api, calls) :=
    if p_codec ≠ NULL then
      let (api, calls) :=
        if api.b_started then
          ({ api with b_started := false }, [NdkCall.stop p_codec])
        else (api, [])
      ({ api with p_sys := { api.p_sys with p_codec := NULL } },
        calls ++ [NdkCall.delete p_codec])
    else (api, [])
  let (api, calls) :=
    if p_format ≠ NULL then
      ({ api with p_sys := { api.p_sys with p_format := NULL } },
        calls ++ [NdkCall.formatDelete p_format])
    else (api, calls)
  { ret := VLC_SUCCESS, api := api, calls := calls }

/-- What the native side answers during one `Start`: the results of
`createCodecByName`, `AMediaFormat.new`, `AWindowHandler_getANativeWindow`,
`configure` and `start`. -/
structure StartNative where
  createCodecByName : Ptr
  formatNew : Ptr
  getANativeWindow : Ptr
  configure : Int
  start : Int
  deriving DecidableEq, Repr

/-- The `error:` label of `Start` reached with `i_ret = VLC_EGENERIC`:
`Stop(api)` runs and `i_ret` is returned.  `calls` are the native calls made
before the jump. -/
def Start_error (api : mc_api) (calls : List NdkCall) : Outcome :=
  let r := Stop api
  { ret := VLC_EGENERIC, api := r.api, calls := calls ++ r.calls }

/-- The function `Start`, lines 299-350. -/
def Start (n : StartNative) (api : mc_api) (p_awh : Ptr) (psz_name psz_mime : String)
    (i_width i_height i_angle : Int) : Outcome :=
  let api := { api with p_sys := { api.p_sys with p_codec := n.createCodecByName } }
  let calls := [NdkCall.createCodecByName psz_name n.createCodecByName]
  if api.p_sys.p_codec = NULL then Start_error api calls
  else
    let api := { api with p_sys := { api.p_sys with p_format := n.formatNew } }
    let calls := calls ++ [NdkCall.formatNew n.formatNew]
    if api.p_sys.p_format = NULL then Start_error api calls
    else
      let calls := calls ++
        [ NdkCall.setString api.p_sys.p_format "mime" psz_mime,
          NdkCall.setInt32 api.p_sys.p_format "width" i_width,
          NdkCall.setInt32 api.p_sys.p_format "height" i_height,
          NdkCall.setInt32 api.p_sys.p_format "rotation-degrees" i_angle,
          NdkCall.setInt32 api.p_sys.p_format "encoder" 0 ]
      let p_anw : Ptr := if p_awh ≠ NULL then n.getANativeWindow else NULL
      let calls := calls ++
        [NdkCall.configure api.p_sys.p_codec api.p_sys.p_format p_anw 0 n.configure]
      if n.configure ≠ AMEDIA_OK then Start_error api calls
      else
        let calls := calls ++ [NdkCall.start api.p_sys.p_codec n.start]
        if n.start ≠ AMEDIA_OK then Start_error api calls
        else
          { ret := VLC_SUCCESS,
            api := { api with b_started := true, b_direct_rendering := decide (p_anw ≠ NULL) },
            calls := calls }

/-- The handle as `MediaCodecNdk_Init` leaves it (`calloc`, and the two flags
of a handle that was never started). -/
def initial : mc_api :=
  { p_sys := { p_codec := NULL, p_format := NULL },
    b_started := false, b_direct_rendering := false }

/-- The native objects that exist at some moment: the codec instances and the
format descriptors created and not yet deleted, one entry per object. -/
structure Ledger where
  codecs : List Ptr
  formats : List Ptr
  deriving DecidableEq, Repr

/-- Bookkeeping of one native call: a successful creation adds an object, a
deletion removes one, and a deletion of an object that does not exist (a
second deletion, say) has no result. -/
def Ledger.record (l : Ledger) : NdkCall → Option Ledger
  | NdkCall.createCodecByName _ ret =>
      if ret ≠ NULL then some { l with codecs := ret :: l.codecs } else some l
  | NdkCall.formatNew ret =>
      if ret ≠ NULL then some { l with formats := ret :: l.formats } else some l
  | NdkCall.delete codec =>
      if codec ∈ l.codecs then some { l with codecs := l.codecs.erase codec } else none
  | NdkCall.formatDelete format =>
      if format ∈ l.formats then some { l with formats := l.formats.erase format } else none
  | _ => some l

/-- Bookkeeping of a sequence of native calls, from the ledger `l`. -/
def Ledger.replay (l : Ledger) : List NdkCall → Option Ledger
  | [] => some l
  | c :: cs =>
      match l.record c with
      | some l1 => Ledger.replay l1 cs
      | none => none

/-- Every object created by the calls has been deleted exactly once: replayed
from nothing, no deletion hits a missing object and nothing is left. -/
def deletedExactlyOnce (calls : List NdkCall) : Bool :=
  decide (Ledger.replay { codecs := [], formats := [] } calls
    = some { codecs := [], formats := [] })

/-- The native objects a handle holds. -/
def held (api : mc_api) : Ledger :=
  { codecs := if api.p_sys.p_codec ≠ NULL then [api.p_sys.p_codec] else [],
    formats := if api.p_sys.p_format ≠ NULL then [api.p_sys.p_format] else [] }

/-- One lifecycle call on a handle: `Start` with its arguments and the native
answers it meets, or `Stop`. -/
inductive Op where
  | start (n : StartNative) (p_awh : Ptr) (psz_name psz_mime : String)
      (i_width i_height i_angle : Int)
  | stop
  deriving DecidableEq, Repr

/-- The call `op` made on the handle `api`. -/
def Op.apply (api : mc_api) : Op → Outcome
  | Op.start n p_awh psz_name psz_mime i_width i_height i_angle =>
      Start n api p_awh psz_name psz_mime i_width i_height i_angle
  | Op.stop => Stop api

/-- A sequence of lifecycle calls made one after the other: the handle at
the end and all native calls made, in order. -/
def runOps (api : mc_api) : List Op → mc_api × List NdkCall
  | [] => (api, [])
  | op :: ops =>
      let r := op.apply api
      let rest := runOps r.api ops
      (rest.1, r.calls ++ rest.2)

/-- Every `Start` of the sequence is made on a handle that holds no codec
instance and no format descriptor. -/
def startsOnEmpty (api : mc_api) : List Op → Bool
  | [] => true
  | Op.stop :: ops => startsOnEmpty (Stop api).api ops
  | Op.start n p_awh psz_name psz_mime i_width i_height i_angle :: ops =>
      decide (api.p_sys.p_codec = NULL) && decide (api.p_sys.p_format = NULL) &&
        startsOnEmpty (Start n api p_awh psz_name psz_mime i_width i_height i_angle).api ops

/-- The initial state of a handle as the lifecycle claims describe it: no
codec instance, no format descriptor, not started. -/
def isInitial (api : mc_api) : Bool :=
  decide (api.p_sys.p_codec = NULL) && decide (api.p_sys.p_format = NULL) && !api.b_started

/-! Input submission. -/

/-- A native buffer: its address (null when the lookup failed) and the bytes
it holds; its capacity, which the lookup reports in `out_size`, is the number
of those bytes. -/
structure NativeBuffer where
  addr : Ptr
  bytes : List Nat
  deriving DecidableEq, Repr

/-- What the native side answers during one `PutInput`: the results of
`dequeueInputBuffer`, `getInputBuffer` and `queueInputBuffer`. -/
structure InputNative where
  dequeueInputBuffer : Int
  getInputBuffer : NativeBuffer
  queueInputBuffer : Int
  deriving DecidableEq, Repr

/-- What `PutInput` leaves behind: the value returned, the bytes of the
dequeued slot after the call (when the call got as far as `memcpy`) and the
native calls made. -/
structure InputOutcome where
  ret : Int
  slot : Option (List Nat)
  calls : List NdkCall
  deriving DecidableEq, Repr

/-- The effect of `memcpy(dst, src, k)` on the bytes of `dst`. -/
def memcpy (dst src : List Nat) (k : Nat) : List Nat :=
  src.take k ++ dst.drop k

/-- The function `PutInput`, lines 368-406.  `p_buf` holds the `i_size` bytes
of the caller, so `i_size` is its length; `i_ts` reaches the native side as a
`uint64_t`. -/
def PutInput (n : InputNative) (api : mc_api) (p_buf : List Nat) (i_ts : Int)
    (b_config : Bool) (i_timeout : Int) : InputOutcome :=
  let i_size := p_buf.length
  let i_flags : Nat := if b_config then AMEDIACODEC_FLAG_CODEC_CONFIG else 0
  let i_index := n.dequeueInputBuffer
  let calls := [NdkCall.dequeueInputBuffer api.p_sys.p_codec i_timeout i_index]
  if i_index < 0 then
    if i_index = AMEDIACODEC_INFO_TRY_AGAIN_LATER then
      { ret := 0, slot := none, calls := calls }
    else
      { ret := VLC_EGENERIC, slot := none, calls := calls }
  else
    let p_mc_buf := n.getInputBuffer.addr
    let i_mc_size := n.getInputBuffer.bytes.length
    let calls := calls ++
      [NdkCall.getInputBuffer api.p_sys.p_codec i_index.toNat p_mc_buf i_mc_size]
    if p_mc_buf = NULL then
      { ret := VLC_EGENERIC, slot := none, calls := calls }
    else
      let i_mc_size := if i_mc_size > i_size then i_size else i_mc_size
      let slot := memcpy n.getInputBuffer.bytes p_buf i_mc_size
      let calls := calls ++
        [NdkCall.queueInputBuffer api.p_sys.p_codec i_index.toNat 0 i_mc_size
          (i_ts % 2 ^ 64) i_flags n.queueInputBuffer]
      if n.queueInputBuffer = AMEDIA_OK then
        { ret := 1, slot := some slot, calls := calls }
      else
        { ret := VLC_EGENERIC, slot := some slot, calls := calls }

/-- The native call is a `queueInputBuffer` that reported failure. -/
def NdkCall.isFailedQueueInput : NdkCall → Bool
  | NdkCall.queueInputBuffer _ _ _ _ _ _ ret => decide (ret ≠ AMEDIA_OK)
  | _ => false

/-! Output retrieval. -/

/-- The native property bag `AMediaFormat`, as the keys it holds with their
32-bit values. -/
abbrev AMediaFormat := List (String × Int)

/-- The native `AMediaFormat_getInt32(format, name, out)`: when the key is
present its value is stored in `out` and the call returns true, otherwise
`out` is left alone and the call returns false.  The result is the returned
flag with the content of `out` after the call. -/
def AMediaFormat_getInt32 (format : AMediaFormat) (name : String) (out : Int) : Bool × Int :=
  match format.lookup name with
  | some v => (true, v)
  | none => (false, out)

/-- The function `GetFormatInteger`, lines 408-413. -/
def GetFormatInteger (p_format : AMediaFormat) (psz_name : String) : Int :=
  let i_out : Int := 0
  let i_out := (AMediaFormat_getInt32 p_format psz_name i_out).2
  i_out

/-- The native `struct AMediaCodecBufferInfo`. -/
structure AMediaCodecBufferInfo where
  offset : Int
  size : Int
  presentationTimeUs : Int
  flags : Nat
  deriving DecidableEq, Repr

/-- Modelled from the spec: the tag of the output record, `MC_OUT_TYPE_BUF`
(a Data event) or `MC_OUT_TYPE_CONF` (a FormatChanged event), declared in
`mediacodec.h`, which is not among the sources. -/
inductive mc_out_type where
  | MC_OUT_TYPE_BUF
  | MC_OUT_TYPE_CONF
  deriving DecidableEq, Repr

/-- Modelled from the spec: the member `u.buf` of the output record of
`mediacodec.h` (not among the sources), with the fields `GetOutput` assigns. -/
structure mc_api_out_buf where
  i_index : Int
  i_ts : Int
  p_ptr : Int
  i_size : Nat
  deriving DecidableEq, Repr

/-- Modelled from the spec: the member `u.conf` of the output record of
`mediacodec.h` (not among the sources), with the fields `GetOutput` assigns. -/
structure mc_api_out_conf where
  width : Int
  height : Int
  stride : Int
  slice_height : Int
  pixel_format : Int
  crop_left : Int
  crop_top : Int
  crop_right : Int
  crop_bottom : Int
  deriving DecidableEq, Repr

/-- Modelled from the spec: the output record `mc_api_out` of `mediacodec.h`
(not among the sources).  The two members of its union are kept side by side;
`type` says which one is meaningful. -/
structure mc_api_out where
  type : mc_out_type
  buf : mc_api_out_buf
  conf : mc_api_out_conf
  deriving DecidableEq, Repr

/-- What the native side answers during one `GetOutput`: the result of
`dequeueOutputBuffer` with the `info` it fills in, the result of
`getOutputBuffer` and the format `getOutputFormat` returns. -/
structure OutputNative where
  dequeueOutputBuffer : Int
  info : AMediaCodecBufferInfo
  getOutputBuffer : NativeBuffer
  getOutputFormat : AMediaFormat
  deriving DecidableEq, Repr

/-- What `GetOutput` leaves behind: the value returned, the output record
`*p_out` afterwards and the native calls made. -/
structure OutputOutcome where
  ret : Int
  out : mc_api_out
  calls : List NdkCall
  deriving DecidableEq, Repr

/-- The native call `getInt32` that `GetFormatInteger` makes for a key. -/
def getInt32Call (format : AMediaFormat) (name : String) : NdkCall :=
  NdkCall.getInt32 name (AMediaFormat_getInt32 format name 0).1

/-- The function `GetOutput`, lines 418-480.  `p_out` is the record the
caller passes in. -/
def GetOutput (n : OutputNative) (api : mc_api) (p_out : mc_api_out) (i_timeout : Int) :
    OutputOutcome :=
  let info := n.info
  let i_index := n.dequeueOutputBuffer
  let calls := [NdkCall.dequeueOutputBuffer api.p_sys.p_codec i_timeout i_index]
  if i_index ≥ 0 then
    let p_out := { p_out with type := mc_out_type.MC_OUT_TYPE_BUF }
    let p_out := { p_out with buf := { p_out.buf with i_index := i_index } }
    let p_out := { p_out with buf := { p_out.buf with i_ts := info.presentationTimeUs } }
    if api.b_direct_rendering then
      let p_out := { p_out with buf := { p_out.buf with p_ptr := 0 } }
      let p_out := { p_out with buf := { p_out.buf with i_size := 0 } }
      { ret := 1, out := p_out, calls := calls }
    else
      let i_mc_size := n.getOutputBuffer.bytes.length
      let p_mc_buf := n.getOutputBuffer.addr
      let calls := calls ++
        [NdkCall.getOutputBuffer api.p_sys.p_codec i_index.toNat p_mc_buf i_mc_size]
      if p_mc_buf = NULL then
        { ret := VLC_EGENERIC, out := p_out, calls := calls }
      else
        let p_out := { p_out with buf := { p_out.buf with p_ptr := (p_mc_buf : Int) + info.offset } }
        let p_out := { p_out with buf := { p_out.buf with i_size := i_mc_size } }
        { ret := 1, out := p_out, calls := calls }
  else if i_index = AMEDIACODEC_INFO_OUTPUT_FORMAT_CHANGED then
    let format := n.getOutputFormat
    let calls := calls ++ [NdkCall.getOutputFormat api.p_sys.p_codec] ++
      [ getInt32Call format "width", getInt32Call format "height",
        getInt32Call format "stride", getInt32Call format "slice-height",
        getInt32Call format "color-format", getInt32Call format "crop-left",
        getInt32Call format "crop-top", getInt32Call format "crop-right",
        getInt32Call format "crop-bottom" ]
    let p_out := { p_out with type := mc_out_type.MC_OUT_TYPE_CONF }
    let p_out := { p_out with conf :=
      { width := GetFormatInteger format "width",
        height := GetFormatInteger format "height",
        stride := GetFormatInteger format "stride",
        slice_height := GetFormatInteger format "slice-height",
        pixel_format := GetFormatInteger format "color-format",
        crop_left := GetFormatInteger format "crop-left",
        crop_top := GetFormatInteger format "crop-top",
        crop_right := GetFormatInteger format "crop-right",
        crop_bottom := GetFormatInteger format "crop-bottom" } }
    { ret := 1, out := p_out, calls := calls }
  else if i_index = AMEDIACODEC_INFO_OUTPUT_BUFFERS_CHANGED
      ∨ i_index = AMEDIACODEC_INFO_TRY_AGAIN_LATER then
    { ret := 0, out := p_out, calls := calls }
  else
    { ret := VLC_EGENERIC, out := p_out, calls := calls }

/-! Symbol resolution. -/

/-- One row of the table `members`: the name of an entry point, the slot of
`struct syms` it is stored in, and whether it is critical.  The slot is kept
as the ordinal of the function pointer in `struct syms` where the C table has
its byte offset. -/
structure members_entry where
  name : String
  offset : Nat
  critical : Bool
  deriving DecidableEq, Repr

/-- The table `members`, lines 188-213, up to its terminating row. -/
def members : List members_entry :=
  [ { name := "AMediaCodec_createCodecByName", offset := 0, critical := true },
    { name := "AMediaCodec_configure", offset := 1, critical := true },
    { name := "AMediaCodec_start", offset := 2, critical := true },
    { name := "AMediaCodec_stop", offset := 3, critical := true },
    { name := "AMediaCodec_flush", offset := 4, critical := true },
    { name := "AMediaCodec_delete", offset := 5, critical := true },
    { name := "AMediaCodec_getOutputFormat", offset := 6, critical := true },
    { name := "AMediaCodec_dequeueInputBuffer", offset := 7, critical := true },
    { name := "AMediaCodec_getInputBuffer", offset := 8, critical := true },
    { name := "AMediaCodec_queueInputBuffer", offset := 9, critical := true },
    { name := "AMediaCodec_dequeueOutputBuffer", offset := 10, critical := true },
    { name := "AMediaCodec_getOutputBuffer", offset := 11, critical := true },
    { name := "AMediaCodec_releaseOutputBuffer", offset := 12, critical := true },
    { name := "AMediaFormat_new", offset := 13, critical := true },
    { name := "AMediaFormat_delete", offset := 14, critical := true },
    { name := "AMediaFormat_setString", offset := 15, critical := true },
    { name := "AMediaFormat_setInt32", offset := 16, critical := true },
    { name := "AMediaFormat_getInt32", offset := 17, critical := true } ]

/-- What the library loader answers during one `InitSymbols`: the handle
`dlopen` returns and, for each name, the address `dlsym` returns. -/
structure LoaderNative where
  dlopen : Ptr
  dlsym : String → Ptr

/-- One call into the library loader. -/
inductive LoaderCall where
  | dlopen (filename : String) (ret : Ptr)
  | dlsym (handle : Ptr) (name : String) (ret : Ptr)
  | dlclose (handle : Ptr)
  deriving DecidableEq, Repr

/-- The statics `InitSymbols` works on: its `i_init_state` and the table
`syms`, one pointer per slot. -/
structure InitStatics where
  i_init_state : Int
  syms : List Ptr
  deriving DecidableEq, Repr

/-- The statics when the process starts: `i_init_state = -1`, `syms` zeroed. -/
def InitStatics.atLoad : InitStatics :=
  { i_init_state := -1, syms := List.replicate 18 NULL }

/-- What `InitSymbols` leaves behind: the value returned, the statics
afterwards and the loader calls made. -/
structure InitOutcome where
  ret : Bool
  statics : InitStatics
  calls : List LoaderCall
  deriving DecidableEq, Repr

/-- The `for` loop of `InitSymbols`, lines 236-245, over the rows still to
do.  The flag is false when the loop left through `goto end`. -/
def resolveMembers (n : LoaderNative) (ndk_handle : Ptr) :
    List members_entry → List Ptr → List LoaderCall → Bool × List Ptr × List LoaderCall
  | [], syms, calls => (true, syms, calls)
  | m :: ms, syms, calls =>
      let sym := n.dlsym m.name
      let calls := calls ++ [LoaderCall.dlsym ndk_handle m.name sym]
      if sym = NULL ∧ m.critical = true then
        (false, syms, calls ++ [LoaderCall.dlclose ndk_handle])
      else
        resolveMembers n ndk_handle ms (syms.set m.offset sym) calls

/-- The label `end:` of `InitSymbols`: the result is `i_init_state == 1`. -/
def InitSymbols_end (statics : InitStatics) (calls : List LoaderCall) : InitOutcome :=
  { ret := decide (statics.i_init_state = 1), statics := statics, calls := calls }

/-- The function `InitSymbols`, lines 218-255, between taking and releasing
its lock. -/
def InitSymbols (n : LoaderNative) (statics : InitStatics) : InitOutcome :=
  if statics.i_init_state ≠ -1 then InitSymbols_end statics []
  else
    let statics := { statics with i_init_state := 0 }
    let ndk_handle := n.dlopen
    let calls := [LoaderCall.dlopen "libmediandk.so" ndk_handle]
    if ndk_handle = NULL then InitSymbols_end statics calls
    else
      let r := resolveMembers n ndk_handle members statics.syms calls
      if r.1 = false then InitSymbols_end { statics with syms := r.2.1 } r.2.2
      else InitSymbols_end { statics with syms := r.2.1, i_init_state := 1 } r.2.2

/-- The calls of `InitSymbols` made one after the other, as its lock orders
them, each meeting its own loader behaviour: the outcome of each call. -/
def runInit (statics : InitStatics) : List LoaderNative → List InitOutcome
  | [] => []
  | n :: ns =>
      let r := InitSymbols n statics
      r :: runInit r.statics ns

/-- The number of `dlopen` calls among loader calls. -/
def dlopenCount (calls : List LoaderCall) : Nat :=
  (calls.filter fun c => match c with
    | LoaderCall.dlopen _ _ => true
    | _ => false).length

/-- An output record before any call wrote to it. -/
def mc_api_out.blank : mc_api_out :=
  { type := mc_out_type.MC_OUT_TYPE_CONF,
    buf := { i_index := 0, i_ts := 0, p_ptr := 0, i_size := 0 },
    conf := { width := 0, height := 0, stride := 0, slice_height := 0, pixel_format := 0,
              crop_left := 0, crop_top := 0, crop_right := 0, crop_bottom := 0 } }

/-- A handle of a running session that outputs to host memory. -/
def runningHandle : mc_api :=
  { p_sys := { p_codec := 1, p_format := 2 }, b_started := true, b_direct_rendering := false }

/-! Flush, release, and the state invariant. -/

/-- The function `Flush`, lines 355-363; `flush` is what the native `flush`
returns. -/
def Flush (flush : Int) (api : mc_api) : Outcome :=
  { ret := if flush = AMEDIA_OK then VLC_SUCCESS else VLC_EGENERIC,
    api := api,
    calls := [NdkCall.flush api.p_sys.p_codec flush] }

/-- The function `ReleaseOutput`, lines 485-494; `releaseOutputBuffer` is what
the native call returns.  The index is recorded as the `int` the caller
passes, before its conversion to `size_t`. -/
def ReleaseOutput (releaseOutputBuffer : Int) (api : mc_api) (i_index : Int)
    (b_render : Bool) : Outcome :=
  { ret := if releaseOutputBuffer = AMEDIA_OK then VLC_SUCCESS else VLC_EGENERIC,
    api := api,
    calls := [NdkCall.releaseOutputBuffer api.p_sys.p_codec i_index b_render
      releaseOutputBuffer] }

/-- The codec instance a native call receives, for the calls that take one
from the handle. -/
def NdkCall.codecArg : NdkCall → Option Ptr
  | NdkCall.configure codec _ _ _ _ => some codec
  | NdkCall.start codec _ => some codec
  | NdkCall.stop codec => some codec
  | NdkCall.flush codec _ => some codec
  | NdkCall.delete codec => some codec
  | NdkCall.getOutputFormat codec => some codec
  | NdkCall.dequeueInputBuffer codec _ _ => some codec
  | NdkCall.getInputBuffer codec _ _ _ => some codec
  | NdkCall.queueInputBuffer codec _ _ _ _ _ _ => some codec
  | NdkCall.dequeueOutputBuffer codec _ _ => some codec
  | NdkCall.getOutputBuffer codec _ _ _ => some codec
  | NdkCall.releaseOutputBuffer codec _ _ _ => some codec
  | _ => none

/-- Some call of the list passes a null codec instance to the native side. -/
def passesNullCodec (calls : List NdkCall) : Bool :=
  calls.any fun c => decide (c.codecArg = some NULL)

/-- Every `Start` of the sequence is made on a handle that is not started. -/
def startsWhenNotStarted (api : mc_api) : List Op → Bool
  | [] => true
  | Op.stop :: ops => startsWhenNotStarted (Stop api).api ops
  | Op.start n p_awh psz_name psz_mime i_width i_height i_angle :: ops =>
      !api.b_started &&
        startsWhenNotStarted (Start n api p_awh psz_name psz_mime i_width i_height i_angle).api
          ops

/-! Output retrieval: the Data event. -/

/-- The Data branch outside direct rendering, for every native answer: the
payload pointer is `base + info.offset` and the reported length is the
capacity of the native buffer, whatever `info.size` is. -/
theorem GetOutput_data_reports_capacity (n : OutputNative) (api : mc_api) (p_out : mc_api_out)
    (i_timeout : Int) (hdr : api.b_direct_rendering = false)
    (hidx : 0 ≤ n.dequeueOutputBuffer) (hbuf : n.getOutputBuffer.addr ≠ NULL) :
    (GetOutput n api p_out i_timeout).ret = 1 ∧
    (GetOutput n api p_out i_timeout).out.type = mc_out_type.MC_OUT_TYPE_BUF ∧
    (GetOutput n api p_out i_timeout).out.buf.p_ptr
      = (n.getOutputBuffer.addr : Int) + n.info.offset ∧
    (GetOutput n api p_out i_timeout).out.buf.i_size = n.getOutputBuffer.bytes.length := by
  simp [GetOutput, hdr, hidx, hbuf]

/-- C1, evaluated on the code: the native dequeue returns index 0 with
`info.offset = 4` and `info.size = 8`, and the lookup returns a buffer at
address 4096 of capacity 16.  `GetOutput` returns 1 with a Data record whose
pointer is `4096 + 4` but whose length is 16, the capacity, not 8; the range
it exposes, `[4, 20)` of the buffer, runs past the capacity 16. -/
theorem C1_GetOutput_length_is_capacity :
    (GetOutput
        { dequeueOutputBuffer := 0,
          info := { offset := 4, size := 8, presentationTimeUs := 33000, flags := 0 },
          getOutputBuffer := { addr := 4096, bytes := List.replicate 16 0 },
          getOutputFormat := [] }
        runningHandle mc_api_out.blank 0).ret = 1 ∧
    (GetOutput
        { dequeueOutputBuffer := 0,
          info := { offset := 4, size := 8, presentationTimeUs := 33000, flags := 0 },
          getOutputBuffer := { addr := 4096, bytes := List.replicate 16 0 },
          getOutputFormat := [] }
        runningHandle mc_api_out.blank 0).out.buf
      = { i_index := 0, i_ts := 33000, p_ptr := 4100, i_size := 16 } ∧
    (16 : Int) ≠ 8 ∧ ¬ ((4 : Int) + 16 ≤ 16) := by
  decide

/-! Input submission. -/

/-- C2: when the native dequeue returns a valid slot index, the slot buffer
is non-null with capacity `c` and the native enqueue reports success,
`PutInput` on `n` bytes returns 1, leaves in the slot exactly the first
`min n c` caller bytes followed by the untouched rest of the slot, and
enqueues the slot with offset 0 and size `min n c`; no error arises when
`n > c`. -/
theorem C2_PutInput_truncation (n : InputNative) (api : mc_api) (p_buf : List Nat)
    (i_ts : Int) (b_config : Bool) (i_timeout : Int)
    (hidx : 0 ≤ n.dequeueInputBuffer) (hbuf : n.getInputBuffer.addr ≠ NULL)
    (hq : n.queueInputBuffer = AMEDIA_OK) :
    (PutInput n api p_buf i_ts b_config i_timeout).ret = 1 ∧
    (PutInput n api p_buf i_ts b_config i_timeout).slot
      = some (p_buf.take (min p_buf.length n.getInputBuffer.bytes.length)
          ++ n.getInputBuffer.bytes.drop (min p_buf.length n.getInputBuffer.bytes.length)) ∧
    (p_buf.take (min p_buf.length n.getInputBuffer.bytes.length)
          ++ n.getInputBuffer.bytes.drop (min p_buf.length n.getInputBuffer.bytes.length)).length
      = n.getInputBuffer.bytes.length ∧
    (PutInput n api p_buf i_ts b_config i_timeout).calls
      = [ NdkCall.dequeueInputBuffer api.p_sys.p_codec i_timeout n.dequeueInputBuffer,
          NdkCall.getInputBuffer api.p_sys.p_codec n.dequeueInputBuffer.toNat
            n.getInputBuffer.addr n.getInputBuffer.bytes.length,
          NdkCall.queueInputBuffer api.p_sys.p_codec n.dequeueInputBuffer.toNat 0
            (min p_buf.length n.getInputBuffer.bytes.length) (i_ts % 2 ^ 64)
            (if b_config then AMEDIACODEC_FLAG_CODEC_CONFIG else 0) AMEDIA_OK ] := by
  have hk : (if n.getInputBuffer.bytes.length > p_buf.length then p_buf.length
      else n.getInputBuffer.bytes.length)
      = min p_buf.length n.getInputBuffer.bytes.length := by
    split <;> omega
  have hnot : ¬ n.dequeueInputBuffer < 0 := by omega
  refine ⟨?_, ?_, ?_, ?_⟩
  · simp [PutInput, hnot, hbuf, hq]
  · simp only [PutInput, hnot, hbuf, hq, if_false, if_true, memcpy, hk]
  · simp [List.length_append, List.length_take, List.length_drop]
  · simp only [PutInput, hnot, hbuf, hq, if_false, if_true, hk]
    simp

/-- Witness of C2: 5 caller bytes into a slot of capacity 3. -/
theorem C2_PutInput_truncation_witness :
    (PutInput { dequeueInputBuffer := 2, getInputBuffer := { addr := 4096, bytes := [0, 0, 0] },
                queueInputBuffer := AMEDIA_OK }
        runningHandle [11, 12, 13, 14, 15] 33000 false 10000).ret = 1 ∧
    (PutInput { dequeueInputBuffer := 2, getInputBuffer := { addr := 4096, bytes := [0, 0, 0] },
                queueInputBuffer := AMEDIA_OK }
        runningHandle [11, 12, 13, 14, 15] 33000 false 10000).slot = some [11, 12, 13] :=
  ⟨(C2_PutInput_truncation
      { dequeueInputBuffer := 2, getInputBuffer := { addr := 4096, bytes := [0, 0, 0] },
        queueInputBuffer := AMEDIA_OK }
      runningHandle [11, 12, 13, 14, 15] 33000 false 10000
      (by decide) (by decide) rfl).1,
   by decide⟩

/-- C3 fails as stated: with the native dequeue returning -2, `PutInput`
returns `VLC_EGENERIC` although `queueInputBuffer` was never invoked. -/
theorem C3_PutInput_error_without_enqueue :
    (PutInput { dequeueInputBuffer := -2, getInputBuffer := { addr := NULL, bytes := [] },
                queueInputBuffer := AMEDIA_OK }
        runningHandle [11, 12, 13] 0 false 0).ret = VLC_EGENERIC ∧
    (PutInput { dequeueInputBuffer := -2, getInputBuffer := { addr := NULL, bytes := [] },
                queueInputBuffer := AMEDIA_OK }
        runningHandle [11, 12, 13] 0 false 0).calls.any NdkCall.isFailedQueueInput = false := by
  decide

/-- C3, amended: for every `PutInput` call and every native behaviour, the
result is `VLC_EGENERIC`, 0 or 1; it is `VLC_EGENERIC` exactly when the native
dequeue returned a negative value other than -1, or the slot lookup returned
a null pointer, or `queueInputBuffer` reported failure, and only in the last
case is a failed `queueInputBuffer` among the native calls made; it is 0
exactly when the dequeue returned -1. -/
theorem C3_PutInput_error_cases (n : InputNative) (api : mc_api) (p_buf : List Nat)
    (i_ts : Int) (b_config : Bool) (i_timeout : Int) :
    ((PutInput n api p_buf i_ts b_config i_timeout).ret = VLC_EGENERIC ∨
      (PutInput n api p_buf i_ts b_config i_timeout).ret = 0 ∨
      (PutInput n api p_buf i_ts b_config i_timeout).ret = 1) ∧
    ((PutInput n api p_buf i_ts b_config i_timeout).ret = VLC_EGENERIC ↔
      (n.dequeueInputBuffer < 0 ∧ n.dequeueInputBuffer ≠ AMEDIACODEC_INFO_TRY_AGAIN_LATER) ∨
      (0 ≤ n.dequeueInputBuffer ∧ n.getInputBuffer.addr = NULL) ∨
      (0 ≤ n.dequeueInputBuffer ∧ n.getInputBuffer.addr ≠ NULL ∧
        n.queueInputBuffer ≠ AMEDIA_OK)) ∧
    ((PutInput n api p_buf i_ts b_config i_timeout).calls.any NdkCall.isFailedQueueInput = true ↔
      (0 ≤ n.dequeueInputBuffer ∧ n.getInputBuffer.addr ≠ NULL ∧
        n.queueInputBuffer ≠ AMEDIA_OK)) ∧
    ((PutInput n api p_buf i_ts b_config i_timeout).ret = 0 ↔
      n.dequeueInputBuffer = AMEDIACODEC_INFO_TRY_AGAIN_LATER) := by
  unfold PutInput
  by_cases h0 : n.dequeueInputBuffer < 0
  · by_cases h1 : n.dequeueInputBuffer = -1
    · simp [h1, NdkCall.isFailedQueueInput]
    · simp [h0, h1, NdkCall.isFailedQueueInput]
  · have h0le : 0 ≤ n.dequeueInputBuffer := by omega
    have h1 : n.dequeueInputBuffer ≠ -1 := by omega
    by_cases hb : n.getInputBuffer.addr = 0
    · simp [h0, h1, hb, h0le, NdkCall.isFailedQueueInput]
    · by_cases hq : n.queueInputBuffer = 0
      · simp [h0, h1, hb, hq, h0le, NdkCall.isFailedQueueInput]
        decide
      · simp [h0, h1, hb, hq, h0le, NdkCall.isFailedQueueInput]

/-! Lifecycle: `Stop` and `Start`. -/

/-- After `Stop` the handle holds nothing and is not in direct rendering. -/
theorem Stop_api (api : mc_api) :
    (Stop api).api.p_sys.p_codec = NULL ∧ (Stop api).api.p_sys.p_format = NULL ∧
    (Stop api).api.b_direct_rendering = false := by
  unfold Stop
  by_cases hc : api.p_sys.p_codec = 0 <;> by_cases hf : api.p_sys.p_format = 0 <;>
    by_cases hs : api.b_started = true <;> simp [hc, hf, hs]

/-- The calls of `Stop` delete what the handle holds, each object once. -/
theorem Stop_replay (api : mc_api) :
    Ledger.replay (held api) (Stop api).calls = some { codecs := [], formats := [] } := by
  unfold Stop held
  by_cases hc : api.p_sys.p_codec = 0 <;> by_cases hf : api.p_sys.p_format = 0 <;>
    by_cases hs : api.b_started = true <;>
    simp [hc, hf, hs, Ledger.replay, Ledger.record]

/-- A `Stop` on a handle that holds nothing makes no native call and changes
nothing but the direct-rendering flag, which it clears. -/
theorem Stop_of_empty (api : mc_api) (hc : api.p_sys.p_codec = NULL)
    (hf : api.p_sys.p_format = NULL) :
    (Stop api).calls = [] ∧ (Stop api).api = { api with b_direct_rendering := false } := by
  unfold Stop
  simp [hc, hf]

/-- Replaying calls one list after the other. -/
theorem Ledger.replay_append (l : Ledger) (cs ds : List NdkCall) :
    Ledger.replay l (cs ++ ds) = (Ledger.replay l cs).bind fun m => Ledger.replay m ds := by
  induction cs generalizing l with
  | nil => simp [Ledger.replay]
  | cons c cs ih =>
    simp only [List.cons_append, Ledger.replay]
    cases h : l.record c with
    | none => simp
    | some l1 => simpa using ih l1

/-- The calls of a `Start` made on a handle that holds no format descriptor
leave, of the objects they create, exactly those the handle holds afterwards. -/
theorem Start_replay (n : StartNative) (api : mc_api) (p_awh : Ptr) (psz_name psz_mime : String)
    (i_width i_height i_angle : Int) (hf : api.p_sys.p_format = NULL) :
    Ledger.replay { codecs := [], formats := [] }
        (Start n api p_awh psz_name psz_mime i_width i_height i_angle).calls
      = some (held (Start n api p_awh psz_name psz_mime i_width i_height i_angle).api) := by
  unfold Start Start_error Stop held
  by_cases hc : n.createCodecByName = 0 <;> by_cases hn : n.formatNew = 0 <;>
    by_cases hcf : n.configure = 0 <;> by_cases hst : n.start = 0 <;>
    by_cases hs : api.b_started = true <;>
    simp [hc, hn, hcf, hst, hs, hf, Ledger.replay, Ledger.record]

/-- What a failed `Start` leaves in a handle that was in its initial state. -/
theorem Start_failure_api (n : StartNative) (api : mc_api) (p_awh : Ptr)
    (psz_name psz_mime : String) (i_width i_height i_angle : Int)
    (hinit : isInitial api = true)
    (herr : (Start n api p_awh psz_name psz_mime i_width i_height i_angle).ret ≠ VLC_SUCCESS) :
    (Start n api p_awh psz_name psz_mime i_width i_height i_angle).api
      = { p_sys := { p_codec := NULL, p_format := NULL },
          b_started := false, b_direct_rendering := false } := by
  obtain ⟨⟨pc, pf⟩, st, dr⟩ := api
  simp only [isInitial, Bool.and_eq_true, decide_eq_true_eq, Bool.not_eq_true'] at hinit
  obtain ⟨⟨hc0, hf0⟩, hs0⟩ := hinit
  subst hc0 hf0 hs0
  revert herr
  unfold Start Start_error Stop
  by_cases hc : n.createCodecByName = 0 <;> by_cases hn : n.formatNew = 0 <;>
    by_cases hcf : n.configure = 0 <;> by_cases hst : n.start = 0 <;>
    simp [hc, hn, hcf, hst]

/-- C4: a `Start` on a handle in its initial state that returns an error
leaves the handle with no codec instance, no format descriptor, not started
and not in direct rendering, and every codec instance and format descriptor
created during the call has been deleted exactly once. -/
theorem C4_Start_failure_tears_down (n : StartNative) (api : mc_api) (p_awh : Ptr)
    (psz_name psz_mime : String) (i_width i_height i_angle : Int)
    (hinit : isInitial api = true)
    (herr : (Start n api p_awh psz_name psz_mime i_width i_height i_angle).ret ≠ VLC_SUCCESS) :
    (Start n api p_awh psz_name psz_mime i_width i_height i_angle).api.p_sys.p_codec = NULL ∧
    (Start n api p_awh psz_name psz_mime i_width i_height i_angle).api.p_sys.p_format = NULL ∧
    (Start n api p_awh psz_name psz_mime i_width i_height i_angle).api.b_started = false ∧
    (Start n api p_awh psz_name psz_mime i_width i_height i_angle).api.b_direct_rendering
      = false ∧
    deletedExactlyOnce
      (Start n api p_awh psz_name psz_mime i_width i_height i_angle).calls = true := by
  have hapi := Start_failure_api n api p_awh psz_name psz_mime i_width i_height i_angle
    hinit herr
  have hf : api.p_sys.p_format = NULL := by
    simp only [isInitial, Bool.and_eq_true, decide_eq_true_eq] at hinit
    exact hinit.1.2
  have hrep := Start_replay n api p_awh psz_name psz_mime i_width i_height i_angle hf
  rw [hapi] at hrep
  refine ⟨by rw [hapi], by rw [hapi], by rw [hapi], by rw [hapi], ?_⟩
  simpa [deletedExactlyOnce, held] using hrep

/-- Witness of C4: the codec and the format are created, `configure` fails. -/
theorem C4_Start_failure_tears_down_witness :
    (Start { createCodecByName := 1, formatNew := 2, getANativeWindow := 0,
             configure := -10000, start := 0 }
        initial 0 "codec.video.avc" "video/avc" 1920 1080 0).api = initial ∧
    (Start { createCodecByName := 1, formatNew := 2, getANativeWindow := 0,
             configure := -10000, start := 0 }
        initial 0 "codec.video.avc" "video/avc" 1920 1080 0).calls
      = [ NdkCall.createCodecByName "codec.video.avc" 1, NdkCall.formatNew 2,
          NdkCall.setString 2 "mime" "video/avc", NdkCall.setInt32 2 "width" 1920,
          NdkCall.setInt32 2 "height" 1080, NdkCall.setInt32 2 "rotation-degrees" 0,
          NdkCall.setInt32 2 "encoder" 0, NdkCall.configure 1 2 0 0 (-10000),
          NdkCall.delete 1, NdkCall.formatDelete 2 ] ∧
    deletedExactlyOnce
      (Start { createCodecByName := 1, formatNew := 2, getANativeWindow := 0,
               configure := -10000, start := 0 }
        initial 0 "codec.video.avc" "video/avc" 1920 1080 0).calls = true :=
  ⟨by decide, by decide,
   (C4_Start_failure_tears_down
      { createCodecByName := 1, formatNew := 2, getANativeWindow := 0,
        configure := -10000, start := 0 }
      initial 0 "codec.video.avc" "video/avc" 1920 1080 0 (by decide) (by decide)).2.2.2.2⟩

/-- C5: from every handle state `Stop` returns success and leaves no codec
instance, no format descriptor and direct rendering off; its native calls
delete each object the handle held exactly once; a second `Stop` right after
makes no native call, returns success and leaves the handle unchanged. -/
theorem C5_Stop_idempotent (api : mc_api) :
    (Stop api).ret = VLC_SUCCESS ∧
    (Stop api).api.p_sys.p_codec = NULL ∧ (Stop api).api.p_sys.p_format = NULL ∧
    (Stop api).api.b_direct_rendering = false ∧
    (Stop (Stop api).api).ret = VLC_SUCCESS ∧
    (Stop (Stop api).api).calls = [] ∧
    (Stop (Stop api).api).api = (Stop api).api ∧
    Ledger.replay (held api) ((Stop api).calls ++ (Stop (Stop api).api).calls)
      = some { codecs := [], formats := [] } := by
  obtain ⟨hc, hf, hd⟩ := Stop_api api
  obtain ⟨hcalls, hsame⟩ := Stop_of_empty (Stop api).api hc hf
  refine ⟨rfl, hc, hf, hd, rfl, hcalls, ?_, ?_⟩
  · rw [hsame]
    cases hS : (Stop api).api with
    | mk p_sys b_started b_direct_rendering =>
      rw [hS] at hd
      simp only at hd
      rw [hd]
  · rw [hcalls, List.append_nil]
    exact Stop_replay api

/-- C6 fails as stated: a window handler is supplied (`p_awh = 7`), it yields
no native window, every native call succeeds; `Start` returns success with
`b_started` true and `b_direct_rendering` false. -/
theorem C6_Start_handler_without_window :
    (Start { createCodecByName := 1, formatNew := 2, getANativeWindow := NULL,
             configure := AMEDIA_OK, start := AMEDIA_OK }
        initial 7 "codec.video.avc" "video/avc" 1920 1080 0).ret = VLC_SUCCESS ∧
    (7 : Ptr) ≠ NULL ∧
    (Start { createCodecByName := 1, formatNew := 2, getANativeWindow := NULL,
             configure := AMEDIA_OK, start := AMEDIA_OK }
        initial 7 "codec.video.avc" "video/avc" 1920 1080 0).api.b_started = true ∧
    (Start { createCodecByName := 1, formatNew := 2, getANativeWindow := NULL,
             configure := AMEDIA_OK, start := AMEDIA_OK }
        initial 7 "codec.video.avc" "video/avc" 1920 1080 0).api.b_direct_rendering = false := by
  decide

/-- C6, amended: after every `Start` that returns success, `b_started` is
true and `b_direct_rendering` is true exactly when a window handler was
supplied and the native window obtained from it is non-null; it is false
whenever no handler was supplied. -/
theorem C6_Start_direct_rendering (n : StartNative) (api : mc_api) (p_awh : Ptr)
    (psz_name psz_mime : String) (i_width i_height i_angle : Int)
    (hok : (Start n api p_awh psz_name psz_mime i_width i_height i_angle).ret = VLC_SUCCESS) :
    (Start n api p_awh psz_name psz_mime i_width i_height i_angle).api.b_started = true ∧
    ((Start n api p_awh psz_name psz_mime i_width i_height i_angle).api.b_direct_rendering
        = true ↔ (p_awh ≠ NULL ∧ n.getANativeWindow ≠ NULL)) ∧
    (p_awh = NULL →
      (Start n api p_awh psz_name psz_mime i_width i_height i_angle).api.b_direct_rendering
        = false) := by
  revert hok
  unfold Start Start_error
  by_cases hc : n.createCodecByName = 0 <;> by_cases hn : n.formatNew = 0 <;>
    by_cases hcf : n.configure = 0 <;> by_cases hst : n.start = 0 <;>
    by_cases hw : p_awh = 0 <;>
    simp [hc, hn, hcf, hst, hw]

/-- Witness of C6: a handler whose native window is non-null. -/
theorem C6_Start_direct_rendering_witness :
    (Start { createCodecByName := 1, formatNew := 2, getANativeWindow := 9,
             configure := AMEDIA_OK, start := AMEDIA_OK }
        initial 7 "codec.video.avc" "video/avc" 1920 1080 0).api.b_started = true ∧
    (Start { createCodecByName := 1, formatNew := 2, getANativeWindow := 9,
             configure := AMEDIA_OK, start := AMEDIA_OK }
        initial 7 "codec.video.avc" "video/avc" 1920 1080 0).api.b_direct_rendering = true :=
  ⟨(C6_Start_direct_rendering
      { createCodecByName := 1, formatNew := 2, getANativeWindow := 9,
        configure := AMEDIA_OK, start := AMEDIA_OK }
      initial 7 "codec.video.avc" "video/avc" 1920 1080 0 (by decide)).1,
   by decide⟩

/-! Output retrieval: sentinels. -/

/-- C7: when the native dequeue returns a negative value `v`, `GetOutput`
returns 0 and leaves the output record as it was if `v` is -3 (buffer set
changed) or -1 (try again later), and returns `VLC_EGENERIC` if `v` is none of
-1, -2 and -3; it returns 0 for no other `v`, so the not-ready outcome is
never an error. -/
theorem C7_GetOutput_negative (n : OutputNative) (api : mc_api) (p_out : mc_api_out)
    (i_timeout : Int) (hneg : n.dequeueOutputBuffer < 0) :
    ((n.dequeueOutputBuffer = AMEDIACODEC_INFO_OUTPUT_BUFFERS_CHANGED ∨
        n.dequeueOutputBuffer = AMEDIACODEC_INFO_TRY_AGAIN_LATER) →
      (GetOutput n api p_out i_timeout).ret = 0 ∧
      (GetOutput n api p_out i_timeout).out = p_out ∧
      (GetOutput n api p_out i_timeout).ret ≠ VLC_EGENERIC) ∧
    ((n.dequeueOutputBuffer ≠ AMEDIACODEC_INFO_TRY_AGAIN_LATER ∧
        n.dequeueOutputBuffer ≠ AMEDIACODEC_INFO_OUTPUT_FORMAT_CHANGED ∧
        n.dequeueOutputBuffer ≠ AMEDIACODEC_INFO_OUTPUT_BUFFERS_CHANGED) →
      (GetOutput n api p_out i_timeout).ret = VLC_EGENERIC) ∧
    ((GetOutput n api p_out i_timeout).ret = 0 ↔
      (n.dequeueOutputBuffer = AMEDIACODEC_INFO_OUTPUT_BUFFERS_CHANGED ∨
        n.dequeueOutputBuffer = AMEDIACODEC_INFO_TRY_AGAIN_LATER)) := by
  have h0 : ¬ n.dequeueOutputBuffer ≥ 0 := by omega
  unfold GetOutput
  by_cases h2 : n.dequeueOutputBuffer = -2
  · simp [h2]
  · by_cases h3 : n.dequeueOutputBuffer = -3
    · simp [h3]
    · by_cases h1 : n.dequeueOutputBuffer = -1
      · simp [h1]
      · simp [h0, h1, h2, h3]

/-- Witness of C7: the native dequeue returns -3. -/
theorem C7_GetOutput_negative_witness :
    (GetOutput
        { dequeueOutputBuffer := -3,
          info := { offset := 0, size := 0, presentationTimeUs := 0, flags := 0 },
          getOutputBuffer := { addr := NULL, bytes := [] }, getOutputFormat := [] }
        runningHandle mc_api_out.blank 0).ret = 0 ∧
    (GetOutput
        { dequeueOutputBuffer := -3,
          info := { offset := 0, size := 0, presentationTimeUs := 0, flags := 0 },
          getOutputBuffer := { addr := NULL, bytes := [] }, getOutputFormat := [] }
        runningHandle mc_api_out.blank 0).out = mc_api_out.blank :=
  ⟨((C7_GetOutput_negative
      { dequeueOutputBuffer := -3,
        info := { offset := 0, size := 0, presentationTimeUs := 0, flags := 0 },
        getOutputBuffer := { addr := NULL, bytes := [] }, getOutputFormat := [] }
      runningHandle mc_api_out.blank 0 (by decide)).1 (Or.inl rfl)).1,
   by decide⟩

/-- The value `GetFormatInteger` returns: the one stored under the key, and 0
when the key is absent. -/
theorem GetFormatInteger_eq (format : AMediaFormat) (name : String) :
    GetFormatInteger format name = (format.lookup name).getD 0 := by
  unfold GetFormatInteger AMediaFormat_getInt32
  cases format.lookup name <;> rfl

/-- C8: when the native dequeue returns -2 (format changed), `GetOutput`
returns 1 with a `MC_OUT_TYPE_CONF` record in which width, height, stride,
slice height, pixel format and the four crop edges are the values the output
format stores under `width`, `height`, `stride`, `slice-height`,
`color-format`, `crop-left`, `crop-top`, `crop-right` and `crop-bottom`, each
0 when its own key is absent; the result is 1 whichever keys are absent. -/
theorem C8_GetOutput_format_changed (n : OutputNative) (api : mc_api) (p_out : mc_api_out)
    (i_timeout : Int)
    (hfmt : n.dequeueOutputBuffer = AMEDIACODEC_INFO_OUTPUT_FORMAT_CHANGED) :
    (GetOutput n api p_out i_timeout).ret = 1 ∧
    (GetOutput n api p_out i_timeout).out.type = mc_out_type.MC_OUT_TYPE_CONF ∧
    (GetOutput n api p_out i_timeout).out.conf
      = { width := (n.getOutputFormat.lookup "width").getD 0,
          height := (n.getOutputFormat.lookup "height").getD 0,
          stride := (n.getOutputFormat.lookup "stride").getD 0,
          slice_height := (n.getOutputFormat.lookup "slice-height").getD 0,
          pixel_format := (n.getOutputFormat.lookup "color-format").getD 0,
          crop_left := (n.getOutputFormat.lookup "crop-left").getD 0,
          crop_top := (n.getOutputFormat.lookup "crop-top").getD 0,
          crop_right := (n.getOutputFormat.lookup "crop-right").getD 0,
          crop_bottom := (n.getOutputFormat.lookup "crop-bottom").getD 0 } := by
  unfold GetOutput
  simp [hfmt, GetFormatInteger_eq]

/-- Witness of C8: a format that holds width, height and color format only. -/
theorem C8_GetOutput_format_changed_witness :
    (GetOutput
        { dequeueOutputBuffer := -2,
          info := { offset := 0, size := 0, presentationTimeUs := 0, flags := 0 },
          getOutputBuffer := { addr := NULL, bytes := [] },
          getOutputFormat := [("width", 1920), ("height", 1080), ("color-format", 21)] }
        runningHandle mc_api_out.blank 0).ret = 1 ∧
    (GetOutput
        { dequeueOutputBuffer := -2,
          info := { offset := 0, size := 0, presentationTimeUs := 0, flags := 0 },
          getOutputBuffer := { addr := NULL, bytes := [] },
          getOutputFormat := [("width", 1920), ("height", 1080), ("color-format", 21)] }
        runningHandle mc_api_out.blank 0).out.conf
      = { width := 1920, height := 1080, stride := 0, slice_height := 0, pixel_format := 21,
          crop_left := 0, crop_top := 0, crop_right := 0, crop_bottom := 0 } :=
  ⟨(C8_GetOutput_format_changed
      { dequeueOutputBuffer := -2,
        info := { offset := 0, size := 0, presentationTimeUs := 0, flags := 0 },
        getOutputBuffer := { addr := NULL, bytes := [] },
        getOutputFormat := [("width", 1920), ("height", 1080), ("color-format", 21)] }
      runningHandle mc_api_out.blank 0 rfl).1,
   by decide⟩

/-! Symbol resolution. -/

/-- The loop went through all rows only if every critical one was found. -/
theorem resolveMembers_found (n : LoaderNative) (ndk_handle : Ptr) (ms : List members_entry)
    (syms : List Ptr) (calls : List LoaderCall)
    (hok : (resolveMembers n ndk_handle ms syms calls).1 = true) :
    ∀ m ∈ ms, m.critical = true → n.dlsym m.name ≠ NULL := by
  induction ms generalizing syms calls with
  | nil => intro m hm; simp at hm
  | cons m0 ms ih =>
    intro m hm hcrit
    simp only [resolveMembers] at hok
    by_cases hmiss : n.dlsym m0.name = NULL ∧ m0.critical = true
    · simp [hmiss] at hok
    · rw [if_neg hmiss] at hok
      rcases List.mem_cons.mp hm with rfl | hm
      · intro hnull
        exact hmiss ⟨hnull, hcrit⟩
      · exact ih _ _ hok m hm hcrit

/-- The loop makes no `dlopen` call. -/
theorem resolveMembers_dlopenCount (n : LoaderNative) (ndk_handle : Ptr)
    (ms : List members_entry) (syms : List Ptr) (calls : List LoaderCall) :
    dlopenCount (resolveMembers n ndk_handle ms syms calls).2.2 = dlopenCount calls := by
  induction ms generalizing syms calls with
  | nil => rfl
  | cons m0 ms ih =>
    simp only [resolveMembers]
    split
    · simp [dlopenCount, List.filter_append]
    · rw [ih]
      simp [dlopenCount, List.filter_append]

/-- Once `i_init_state` has left -1, `InitSymbols` only reports it. -/
theorem InitSymbols_cached (n : LoaderNative) (statics : InitStatics)
    (h : statics.i_init_state ≠ -1) :
    InitSymbols n statics
      = { ret := decide (statics.i_init_state = 1), statics := statics, calls := [] } := by
  simp [InitSymbols, InitSymbols_end, h]

/-- What every `InitSymbols` call leaves: `i_init_state` is not -1 any more,
and the value returned says whether it is 1. -/
theorem InitSymbols_settles (n : LoaderNative) (statics : InitStatics) :
    (InitSymbols n statics).statics.i_init_state ≠ -1 ∧
    (InitSymbols n statics).ret
      = decide ((InitSymbols n statics).statics.i_init_state = 1) := by
  unfold InitSymbols InitSymbols_end
  by_cases h : statics.i_init_state = -1
  · by_cases hd : n.dlopen = 0
    · simp [h, hd]
    · cases hr : (resolveMembers n n.dlopen members statics.syms
          [LoaderCall.dlopen "libmediandk.so" n.dlopen]).1 <;> simp [h, hd, hr]
  · simp [h]

/-- Calls made after the state is settled return the cached outcome, make no
loader call and leave the statics alone. -/
theorem runInit_cached (statics : InitStatics) (ns : List LoaderNative)
    (h : statics.i_init_state ≠ -1) :
    ∀ r ∈ runInit statics ns,
      r.ret = decide (statics.i_init_state = 1) ∧ r.calls = [] ∧ r.statics = statics := by
  induction ns with
  | nil => intro r hr; simp [runInit] at hr
  | cons n ns ih =>
    intro r hr
    simp only [runInit, InitSymbols_cached n statics h, List.mem_cons] at hr
    rcases hr with rfl | hr
    · exact ⟨rfl, rfl, rfl⟩
    · exact ih r hr

/-- The first call makes one `dlopen` call. -/
theorem InitSymbols_first_dlopenCount (n : LoaderNative) (statics : InitStatics)
    (h : statics.i_init_state = -1) : dlopenCount (InitSymbols n statics).calls = 1 := by
  unfold InitSymbols InitSymbols_end
  by_cases hd : n.dlopen = 0
  · simp [h, hd, dlopenCount]
  · cases hr : (resolveMembers n n.dlopen members statics.syms
        [LoaderCall.dlopen "libmediandk.so" n.dlopen]).1 <;>
      simp [h, hd, hr, resolveMembers_dlopenCount] <;> simp [dlopenCount]

/-- A successful first call had the library loaded and every critical entry
point found. -/
theorem InitSymbols_success (n : LoaderNative) (statics : InitStatics)
    (h : statics.i_init_state = -1) (hok : (InitSymbols n statics).ret = true) :
    n.dlopen ≠ NULL ∧ ∀ m ∈ members, m.critical = true → n.dlsym m.name ≠ NULL := by
  unfold InitSymbols InitSymbols_end at hok
  by_cases hd : n.dlopen = 0
  · simp [h, hd] at hok
  · refine ⟨hd, ?_⟩
    cases hr : (resolveMembers n n.dlopen members statics.syms
        [LoaderCall.dlopen "libmediandk.so" n.dlopen]).1
    · simp [h, hd, hr] at hok
    · exact resolveMembers_found n n.dlopen members _ _ hr

/-- C9: for every sequence of `InitSymbols` calls made one after the other
from process start, whatever the loader answers in each: every call returns
what the first call returned; the calls after the first make no loader call
at all, so `dlopen` is attempted at most once in total and only by the first
call; and the outcome is success only if the library loaded and every entry
point marked critical was found. -/
theorem C9_InitSymbols_idempotent (n : LoaderNative) (ns : List LoaderNative) :
    (∀ r ∈ runInit InitStatics.atLoad (n :: ns),
      r.ret = (InitSymbols n InitStatics.atLoad).ret) ∧
    (∀ r ∈ runInit (InitSymbols n InitStatics.atLoad).statics ns, r.calls = []) ∧
    dlopenCount ((runInit InitStatics.atLoad (n :: ns)).flatMap fun r => r.calls) ≤ 1 ∧
    ((InitSymbols n InitStatics.atLoad).ret = true →
      n.dlopen ≠ NULL ∧ ∀ m ∈ members, m.critical = true → n.dlsym m.name ≠ NULL) := by
  obtain ⟨hne, hret⟩ := InitSymbols_settles n InitStatics.atLoad
  have hlater := runInit_cached (InitSymbols n InitStatics.atLoad).statics ns hne
  refine ⟨?_, fun r hr => (hlater r hr).2.1, ?_, InitSymbols_success n _ rfl⟩
  · intro r hr
    simp only [runInit, List.mem_cons] at hr
    rcases hr with rfl | hr
    · rfl
    · rw [(hlater r hr).1, hret]
  · have hnil : ((runInit (InitSymbols n InitStatics.atLoad).statics ns).flatMap
        fun r => r.calls) = [] := by
      rw [List.flatMap_eq_nil_iff]
      exact fun r hr => (hlater r hr).2.1
    simp only [runInit, List.flatMap_cons, hnil, List.append_nil]
    exact le_of_eq (InitSymbols_first_dlopenCount n _ rfl)

/-- Witness of C9: three calls; the library loads and every entry point is
found in the first, the loader would fail in the two later ones. -/
theorem C9_InitSymbols_idempotent_witness :
    (runInit InitStatics.atLoad
        [ { dlopen := 1, dlsym := fun _ => 5 }, { dlopen := NULL, dlsym := fun _ => NULL },
          { dlopen := NULL, dlsym := fun _ => NULL } ]).map (fun r => r.ret)
      = [true, true, true] ∧
    dlopenCount ((runInit InitStatics.atLoad
        [ { dlopen := 1, dlsym := fun _ => 5 }, { dlopen := NULL, dlsym := fun _ => NULL },
          { dlopen := NULL, dlsym := fun _ => NULL } ]).flatMap fun r => r.calls) ≤ 1 :=
  ⟨by decide,
   (C9_InitSymbols_idempotent { dlopen := 1, dlsym := fun _ => 5 }
      [ { dlopen := NULL, dlsym := fun _ => NULL },
        { dlopen := NULL, dlsym := fun _ => NULL } ]).2.2.1⟩

/-! Lifecycle: sequences of `Start` and `Stop`. -/

/-- Lifecycle calls made one after the other, in two parts. -/
theorem runOps_append (api : mc_api) (xs ys : List Op) :
    runOps api (xs ++ ys)
      = ((runOps (runOps api xs).1 ys).1, (runOps api xs).2 ++ (runOps (runOps api xs).1 ys).2) := by
  induction xs generalizing api with
  | nil => simp [runOps]
  | cons x xs ih => simp [runOps, ih, List.append_assoc]

/-- A handle on which `Stop` has just run holds nothing. -/
theorem held_Stop (api : mc_api) : held (Stop api).api = { codecs := [], formats := [] } := by
  obtain ⟨hc, hf, _⟩ := Stop_api api
  simp [held, hc, hf]

/-- Along a sequence in which every `Start` meets a handle that holds
nothing, the native calls turn the objects the handle held at the beginning
into the objects it holds at the end, and delete nothing twice. -/
theorem runOps_replay (api : mc_api) (ops : List Op) (h : startsOnEmpty api ops = true) :
    Ledger.replay (held api) (runOps api ops).2 = some (held (runOps api ops).1) := by
  induction ops generalizing api with
  | nil => simp [runOps, Ledger.replay]
  | cons op ops ih =>
    cases op with
    | stop =>
      simp only [startsOnEmpty] at h
      simp only [runOps, Op.apply]
      rw [Ledger.replay_append, Stop_replay, Option.some_bind, ← held_Stop api]
      exact ih _ h
    | start n p_awh psz_name psz_mime i_width i_height i_angle =>
      simp only [startsOnEmpty, Bool.and_eq_true, decide_eq_true_eq] at h
      obtain ⟨⟨hc, hf⟩, hrest⟩ := h
      have hheld : held api = { codecs := [], formats := [] } := by simp [held, hc, hf]
      simp only [runOps, Op.apply]
      rw [Ledger.replay_append, hheld,
        Start_replay n api p_awh psz_name psz_mime i_width i_height i_angle hf,
        Option.some_bind]
      exact ih _ hrest

/-- C10 fails as stated: from the initial state, two `Start` calls that both
succeed, then `Stop`.  The second `Start` overwrites the codec instance 1 and
the format descriptor 2 of the first; after the final `Stop` they are still
undeleted. -/
theorem C10_second_Start_leaks :
    isInitial initial = true ∧
    Ledger.replay { codecs := [], formats := [] }
      (runOps initial
        [ Op.start { createCodecByName := 1, formatNew := 2, getANativeWindow := NULL,
                     configure := AMEDIA_OK, start := AMEDIA_OK }
            NULL "codec.video.avc" "video/avc" 1920 1080 0,
          Op.start { createCodecByName := 3, formatNew := 4, getANativeWindow := NULL,
                     configure := AMEDIA_OK, start := AMEDIA_OK }
            NULL "codec.video.avc" "video/avc" 1920 1080 0,
          Op.stop ]).2 = some { codecs := [1], formats := [2] } ∧
    deletedExactlyOnce
      (runOps initial
        [ Op.start { createCodecByName := 1, formatNew := 2, getANativeWindow := NULL,
                     configure := AMEDIA_OK, start := AMEDIA_OK }
            NULL "codec.video.avc" "video/avc" 1920 1080 0,
          Op.start { createCodecByName := 3, formatNew := 4, getANativeWindow := NULL,
                     configure := AMEDIA_OK, start := AMEDIA_OK }
            NULL "codec.video.avc" "video/avc" 1920 1080 0,
          Op.stop ]).2 = false := by
  decide

/-- C10, amended: for every finite sequence of `Start` and `Stop` calls on a
handle that begins in its initial state, in which every `Start` is made while
the handle holds no codec instance and no format descriptor, and for every
native behaviour: once a final `Stop` has run, every codec instance and every
format descriptor created by a `Start` of the sequence has been deleted
exactly once. -/
theorem C10_teardown_leak_free (api : mc_api) (ops : List Op)
    (hinit : isInitial api = true) (hstarts : startsOnEmpty api ops = true) :
    deletedExactlyOnce (runOps api (ops ++ [Op.stop])).2 = true := by
  have hheld : held api = { codecs := [], formats := [] } := by
    simp only [isInitial, Bool.and_eq_true, decide_eq_true_eq] at hinit
    simp [held, hinit.1.1, hinit.1.2]
  have hrun := runOps_replay api ops hstarts
  rw [hheld] at hrun
  simp only [deletedExactlyOnce, decide_eq_true_eq]
  rw [runOps_append, Ledger.replay_append, hrun, Option.some_bind]
  simp only [runOps, Op.apply, List.append_nil]
  exact Stop_replay _

/-- Witness of C10: a failed `Start`, a successful one, `Stop`, a successful
`Start` again, a repeated `Stop`, and the final `Stop`. -/
theorem C10_teardown_leak_free_witness :
    deletedExactlyOnce
      (runOps initial
        ([ Op.start { createCodecByName := 1, formatNew := 2, getANativeWindow := NULL,
                      configure := AMEDIA_OK, start := -10000 }
             NULL "codec.video.avc" "video/avc" 1920 1080 0,
           Op.start { createCodecByName := 1, formatNew := 2, getANativeWindow := NULL,
                      configure := AMEDIA_OK, start := AMEDIA_OK }
             NULL "codec.video.avc" "video/avc" 1920 1080 0,
           Op.stop,
           Op.start { createCodecByName := 3, formatNew := 1, getANativeWindow := NULL,
                      configure := AMEDIA_OK, start := AMEDIA_OK }
             NULL "codec.video.avc" "video/avc" 1920 1080 0,
           Op.stop ] ++ [Op.stop])).2 = true :=
  C10_teardown_leak_free initial _ (by decide) (by decide)

/-! The state invariant along sequences of `Start` and `Stop`. -/

/-- After `Stop` on a handle whose started flag implies a codec instance, the
handle is not started. -/
theorem Stop_not_started (api : mc_api)
    (h : api.b_started = true → api.p_sys.p_codec ≠ NULL) :
    (Stop api).api.b_started = false := by
  unfold Stop
  by_cases hc : api.p_sys.p_codec = 0
  · have hs : api.b_started = false := by
      cases hb : api.b_started
      · rfl
      · exact absurd hc (h hb)
    by_cases hf : api.p_sys.p_format = 0 <;> simp [hc, hf, hs]
  · by_cases hf : api.p_sys.p_format = 0 <;> by_cases hs : api.b_started = true <;>
      simp [hc, hf, hs]

/-- After a `Start` made on a handle that is not started, a started handle
holds a codec instance and a format descriptor. -/
theorem Start_started_holds (n : StartNative) (api : mc_api) (p_awh : Ptr)
    (psz_name psz_mime : String) (i_width i_height i_angle : Int)
    (hs : api.b_started = false) :
    (Start n api p_awh psz_name psz_mime i_width i_height i_angle).api.b_started = true →
      (Start n api p_awh psz_name psz_mime i_width i_height i_angle).api.p_sys.p_codec ≠ NULL ∧
      (Start n api p_awh psz_name psz_mime i_width i_height i_angle).api.p_sys.p_format
        ≠ NULL := by
  unfold Start Start_error Stop
  by_cases hc : n.createCodecByName = 0 <;> by_cases hn : n.formatNew = 0 <;>
    by_cases hcf : n.configure = 0 <;> by_cases hst : n.start = 0 <;>
    by_cases hf : api.p_sys.p_format = 0 <;>
    simp [hc, hn, hcf, hst, hf, hs]

/-- After every `Start`, a handle in direct rendering is started. -/
theorem Start_direct_started (n : StartNative) (api : mc_api) (p_awh : Ptr)
    (psz_name psz_mime : String) (i_width i_height i_angle : Int) :
    (Start n api p_awh psz_name psz_mime i_width i_height i_angle).api.b_direct_rendering
        = true →
      (Start n api p_awh psz_name psz_mime i_width i_height i_angle).api.b_started = true := by
  unfold Start Start_error Stop
  by_cases hc : n.createCodecByName = 0 <;> by_cases hn : n.formatNew = 0 <;>
    by_cases hcf : n.configure = 0 <;> by_cases hst : n.start = 0 <;>
    by_cases hf : api.p_sys.p_format = 0 <;> by_cases hs : api.b_started = true <;>
    simp [hc, hn, hcf, hst, hf, hs]

/-- Direct rendering implies started all along every sequence of `Start` and
`Stop` calls. -/
theorem runOps_direct_started (api : mc_api) (ops : List Op)
    (h : api.b_direct_rendering = true → api.b_started = true) :
    (runOps api ops).1.b_direct_rendering = true → (runOps api ops).1.b_started = true := by
  induction ops generalizing api with
  | nil => simpa [runOps] using h
  | cons op ops ih =>
    simp only [runOps]
    apply ih
    cases op with
    | stop =>
      intro hd
      simp only [Op.apply] at hd
      rw [(Stop_api api).2.2] at hd
      exact absurd hd (by decide)
    | start n p_awh psz_name psz_mime i_width i_height i_angle =>
      exact Start_direct_started n api p_awh psz_name psz_mime i_width i_height i_angle

/-- Along a sequence in which every `Start` meets a handle that is not
started, a started handle holds a codec instance and a format descriptor. -/
theorem runOps_started_holds (api : mc_api) (ops : List Op)
    (hstarts : startsWhenNotStarted api ops = true)
    (h : api.b_started = true → api.p_sys.p_codec ≠ NULL ∧ api.p_sys.p_format ≠ NULL) :
    (runOps api ops).1.b_started = true →
      (runOps api ops).1.p_sys.p_codec ≠ NULL ∧ (runOps api ops).1.p_sys.p_format ≠ NULL := by
  induction ops generalizing api with
  | nil => simpa [runOps] using h
  | cons op ops ih =>
    cases op with
    | stop =>
      simp only [startsWhenNotStarted] at hstarts
      simp only [runOps, Op.apply]
      apply ih _ hstarts
      intro hb
      rw [Stop_not_started api fun hs => (h hs).1] at hb
      exact absurd hb (by decide)
    | start n p_awh psz_name psz_mime i_width i_height i_angle =>
      simp only [startsWhenNotStarted, Bool.and_eq_true, Bool.not_eq_true'] at hstarts
      simp only [runOps, Op.apply]
      exact ih _ hstarts.2
        (Start_started_holds n api p_awh psz_name psz_mime i_width i_height i_angle hstarts.1)

/-- On a handle that holds a codec instance, `Flush`, `PutInput`, `GetOutput`
and `ReleaseOutput` pass no null codec to the native side. -/
theorem calls_pass_codec (api : mc_api) (hc : api.p_sys.p_codec ≠ NULL) :
    (∀ flush : Int, passesNullCodec (Flush flush api).calls = false) ∧
    (∀ (n : InputNative) (p_buf : List Nat) (i_ts : Int) (b_config : Bool) (i_timeout : Int),
      passesNullCodec (PutInput n api p_buf i_ts b_config i_timeout).calls = false) ∧
    (∀ (n : OutputNative) (p_out : mc_api_out) (i_timeout : Int),
      passesNullCodec (GetOutput n api p_out i_timeout).calls = false) ∧
    (∀ (releaseOutputBuffer i_index : Int) (b_render : Bool),
      passesNullCodec (ReleaseOutput releaseOutputBuffer api i_index b_render).calls
        = false) := by
  refine ⟨?_, ?_, ?_, ?_⟩
  · intro flush
    simp [passesNullCodec, Flush, NdkCall.codecArg, hc]
  · intro n p_buf i_ts b_config i_timeout
    unfold PutInput
    by_cases h0 : n.dequeueInputBuffer < 0 <;> by_cases h1 : n.dequeueInputBuffer = -1 <;>
      by_cases hb : n.getInputBuffer.addr = 0 <;> by_cases hq : n.queueInputBuffer = 0 <;>
      simp [passesNullCodec, NdkCall.codecArg, hc, h0, h1, hb, hq]
  · intro n p_out i_timeout
    unfold GetOutput
    by_cases h0 : n.dequeueOutputBuffer ≥ 0
    · by_cases hd : api.b_direct_rendering = true
      · simp [passesNullCodec, NdkCall.codecArg, hc, h0, hd]
      · by_cases hb : n.getOutputBuffer.addr = 0 <;>
          simp [passesNullCodec, NdkCall.codecArg, hc, h0, hd, hb]
    · by_cases h2 : n.dequeueOutputBuffer = -2
      · simp [passesNullCodec, NdkCall.codecArg, getInt32Call, hc, h2]
      · by_cases h3 : n.dequeueOutputBuffer = -3
        · simp [passesNullCodec, NdkCall.codecArg, hc, h3]
        · by_cases h1 : n.dequeueOutputBuffer = -1
          · simp [passesNullCodec, NdkCall.codecArg, hc, h1]
          · simp [passesNullCodec, NdkCall.codecArg, hc, h0, h1, h2, h3]
  · intro r i_index b_render
    simp [passesNullCodec, ReleaseOutput, NdkCall.codecArg, hc]

/-- C11 fails as stated: from the initial state, a `Start` that succeeds and
then a `Start` whose `createCodecByName` returns null.  The `Stop` run by the
failed `Start` finds no codec instance and so leaves `b_started` alone: the
handle is started with no codec instance and no format descriptor, and a
`Flush` on it passes the null codec to the native side. -/
theorem C11_started_without_codec :
    isInitial initial = true ∧ initial.b_direct_rendering = false ∧
    (runOps initial
      [ Op.start { createCodecByName := 1, formatNew := 2, getANativeWindow := NULL,
                   configure := AMEDIA_OK, start := AMEDIA_OK }
          NULL "codec.video.avc" "video/avc" 1920 1080 0,
        Op.start { createCodecByName := NULL, formatNew := 4, getANativeWindow := NULL,
                   configure := AMEDIA_OK, start := AMEDIA_OK }
          NULL "codec.video.avc" "video/avc" 1920 1080 0 ]).1
      = { p_sys := { p_codec := NULL, p_format := NULL },
          b_started := true, b_direct_rendering := false } ∧
    passesNullCodec
      (Flush AMEDIA_OK
        (runOps initial
          [ Op.start { createCodecByName := 1, formatNew := 2, getANativeWindow := NULL,
                       configure := AMEDIA_OK, start := AMEDIA_OK }
              NULL "codec.video.avc" "video/avc" 1920 1080 0,
            Op.start { createCodecByName := NULL, formatNew := 4, getANativeWindow := NULL,
                       configure := AMEDIA_OK, start := AMEDIA_OK }
              NULL "codec.video.avc" "video/avc" 1920 1080 0 ]).1).calls = true := by
  decide

/-- C11, amended: in every handle state reached from the initial state (no
codec, no format, not started, not in direct rendering) by a finite sequence
of `Start` and `Stop` calls, under any native behaviour, direct rendering
implies started; and when every `Start` of the sequence was made on a handle
that was not started, started implies that the handle holds a non-null codec
instance and a non-null format descriptor, so that `Flush`, `PutInput`,
`GetOutput` and `ReleaseOutput` on the started handle pass no null codec to
the native side. -/
theorem C11_state_invariant (api : mc_api) (ops : List Op)
    (hinit : isInitial api = true) (hdr : api.b_direct_rendering = false) :
    ((runOps api ops).1.b_direct_rendering = true → (runOps api ops).1.b_started = true) ∧
    (startsWhenNotStarted api ops = true → (runOps api ops).1.b_started = true →
      (runOps api ops).1.p_sys.p_codec ≠ NULL ∧
      (runOps api ops).1.p_sys.p_format ≠ NULL ∧
      (∀ flush : Int, passesNullCodec (Flush flush (runOps api ops).1).calls = false) ∧
      (∀ (n : InputNative) (p_buf : List Nat) (i_ts : Int) (b_config : Bool)
          (i_timeout : Int),
        passesNullCodec
          (PutInput n (runOps api ops).1 p_buf i_ts b_config i_timeout).calls = false) ∧
      (∀ (n : OutputNative) (p_out : mc_api_out) (i_timeout : Int),
        passesNullCodec (GetOutput n (runOps api ops).1 p_out i_timeout).calls = false) ∧
      (∀ (releaseOutputBuffer i_index : Int) (b_render : Bool),
        passesNullCodec
          (ReleaseOutput releaseOutputBuffer (runOps api ops).1 i_index b_render).calls
          = false)) := by
  have hs0 : api.b_started = false := by
    simp only [isInitial, Bool.and_eq_true, Bool.not_eq_true'] at hinit
    exact hinit.2
  refine ⟨runOps_direct_started api ops ?_, ?_⟩
  · intro hd
    rw [hdr] at hd
    exact absurd hd (by decide)
  · intro hstarts hstarted
    have hheld := runOps_started_holds api ops hstarts
      (fun hb => by rw [hs0] at hb; exact absurd hb (by decide)) hstarted
    exact ⟨hheld.1, hheld.2, calls_pass_codec _ hheld.1⟩

/-- Witness of C11: a failed `Start`, a successful one with a surface, `Stop`,
and a successful `Start` again; the handle ends started with codec 3 and
format 4. -/
theorem C11_state_invariant_witness :
    startsWhenNotStarted initial
      [ Op.start { createCodecByName := NULL, formatNew := 2, getANativeWindow := NULL,
                   configure := AMEDIA_OK, start := AMEDIA_OK }
          NULL "codec.video.avc" "video/avc" 1920 1080 0,
        Op.start { createCodecByName := 1, formatNew := 2, getANativeWindow := 9,
                   configure := AMEDIA_OK, start := AMEDIA_OK }
          7 "codec.video.avc" "video/avc" 1920 1080 0,
        Op.stop,
        Op.start { createCodecByName := 3, formatNew := 4, getANativeWindow := NULL,
                   configure := AMEDIA_OK, start := AMEDIA_OK }
          NULL "codec.video.avc" "video/avc" 1920 1080 0 ] = true ∧
    (runOps initial
      [ Op.start { createCodecByName := NULL, formatNew := 2, getANativeWindow := NULL,
                   configure := AMEDIA_OK, start := AMEDIA_OK }
          NULL "codec.video.avc" "video/avc" 1920 1080 0,
        Op.start { createCodecByName := 1, formatNew := 2, getANativeWindow := 9,
                   configure := AMEDIA_OK, start := AMEDIA_OK }
          7 "codec.video.avc" "video/avc" 1920 1080 0,
        Op.stop,
        Op.start { createCodecByName := 3, formatNew := 4, getANativeWindow := NULL,
                   configure := AMEDIA_OK, start := AMEDIA_OK }
          NULL "codec.video.avc" "video/avc" 1920 1080 0 ]).1.p_sys.p_codec ≠ NULL :=
  ⟨by decide,
   ((C11_state_invariant initial
      [ Op.start { createCodecByName := NULL, formatNew := 2, getANativeWindow := NULL,
                   configure := AMEDIA_OK, start := AMEDIA_OK }
          NULL "codec.video.avc" "video/avc" 1920 1080 0,
        Op.start { createCodecByName := 1, formatNew := 2, getANativeWindow := 9,
                   configure := AMEDIA_OK, start := AMEDIA_OK }
          7 "codec.video.avc" "video/avc" 1920 1080 0,
        Op.stop,
        Op.start { createCodecByName := 3, formatNew := 4, getANativeWindow := NULL,
                   configure := AMEDIA_OK, start := AMEDIA_OK }
          NULL "codec.video.avc" "video/avc" 1920 1080 0 ]
      (by decide) (by decide)).2 (by decide) (by decide)).1⟩

end MediaCodecNdk
